import Mathlib

/-!
Shallow embedding of the trivia API backend
(`src/starter/backend/flaskr/__init__.py`) and proofs about its
question-bank and quiz-selection operations.

Conventions of the embedding:
* The database of questions is a `List Question` in ascending-id order
  (the order guaranteed by the store); categories are a `List Category`.
* Each Flask endpoint becomes a pure function returning an `Outcome`:
  `abort(404)` is `.notFound`, `abort(422)` is `.unprocessable`, an
  uncaught Python exception such as `KeyError` is `.internalError`.
* JSON bodies: a key that may be absent is an outer `Option`; a value
  that may be JSON `null` is an inner `Option`.
* `random.randint(0, n-1)` is modelled by a caller-supplied natural
  number reduced modulo `n` (every draw in range is representable);
  on an empty pool `randint(0, -1)` raises `ValueError`, which the
  endpoint's bare `except` turns into `abort(422)`.
* SQL `ILIKE` is modelled by `likeMatch` over lower-cased character
  lists, with `%` and `_` wildcards and backslash escaping.
-/

namespace Trivia

/-- A question record: id, question text, answer text, category id,
difficulty rating (mirrors the `Question` model). -/
structure Question where
  id : Nat
  question : List Char
  answer : List Char
  category : Nat
  difficulty : Nat
deriving DecidableEq, Repr

/-- A category record: id and display name (mirrors the `Category` model). -/
structure Category where
  id : Nat
  type : List Char
deriving DecidableEq, Repr

/-- Mutable store state for the mutating endpoints: the question rows plus
the next id the store will assign on insert. -/
structure Store where
  questions : List Question
  nextId : Nat
deriving DecidableEq, Repr

/-- Observable outcome of an endpoint call: a success payload, or one of
the error responses produced by `abort(404)` / `abort(422)`, or an
uncaught exception surfacing as an internal server error. -/
inductive Outcome (α : Type) where
  | success : α → Outcome α
  | notFound : Outcome α
  | unprocessable : Outcome α
  | internalError : Outcome α
deriving DecidableEq, Repr

/-- Payload of `GET /questions`: the page of questions, the total count,
the always-`None` current category, and the category table. -/
structure QuestionsPage where
  questions : List Question
  total_questions : Nat
  current_category : Option (List Char)
  categories : List Category
deriving DecidableEq, Repr

/-- Flask-SQLAlchemy `query.paginate(page, 10).items`: the slice
`[(page-1)*10, (page-1)*10 + 10)` of the ordered rows. -/
def paginate_items (qs : List Question) (page : Nat) : List Question :=
  (qs.drop ((page - 1) * 10)).take 10

/-- Endpoint `GET /questions` (`get_questions`): paginates the id-ordered
question list, 404 when the page slice is empty (flask-sqlalchemy's
`error_out` aborts 404 on an out-of-range page; the endpoint's own
`len == 0` check aborts 404 on an empty first page — observably the same). -/
def get_questions (store : List Question) (categories : List Category)
    (page : Nat) : Outcome QuestionsPage :=
  let current_questions := paginate_items store page
  if current_questions.length = 0 then
    .notFound
  else
    .success ⟨current_questions, store.length, none, categories⟩

/-- Endpoint `DELETE /questions/<id>` (`delete_question`): looks the row up,
`abort(404)` when absent — but that abort is raised inside the `try`, so the
bare `except` converts it to `abort(422)`; on success the row is deleted and
the deleted id reported. -/
def delete_question (store : Store) (question_id : Nat) :
    Outcome Nat × Store :=
  match store.questions.find? (fun q => q.id = question_id) with
  | none => (.unprocessable, store)
  | some _ =>
      (.success question_id,
       { store with
          questions := store.questions.filter (fun q => q.id ≠ question_id) })

/-- JSON body of `POST /questions`: each key may be absent (outer `none`)
or present with a `null` value (inner `none`). -/
structure CreateBody where
  question : Option (Option (List Char))
  answer : Option (Option (List Char))
  category : Option (Option Nat)
  difficulty : Option (Option Nat)
deriving DecidableEq, Repr

/-- Endpoint `POST /questions` (`create_question`): the four
`data['...']` subscript extractions happen before the null-check and before
the `try`, so an absent key raises an uncaught `KeyError`
(`.internalError`); a present-but-null field hits the explicit `is None`
check and aborts 422; otherwise the question is inserted with the store's
next id and that id is reported. -/
def create_question (store : Store) (body : CreateBody) :
    Outcome Nat × Store :=
  match body.question, body.answer, body.category, body.difficulty with
  | some qb, some qa, some qc, some qd =>
      match qb, qa, qc, qd with
      | some b, some a, some c, some d =>
          (.success store.nextId,
           ⟨store.questions ++ [⟨store.nextId, b, a, c, d⟩],
            store.nextId + 1⟩)
      | _, _, _, _ => (.unprocessable, store)
  | _, _, _, _ => (.internalError, store)

/-- Lower-case a character list (models SQL `ILIKE` case folding). -/
def lowerStr (s : List Char) : List Char := s.map Char.toLower

/-- SQL `LIKE` pattern matching: `%` matches any (possibly empty) run of
characters, `_` matches exactly one character, a backslash escapes the
next pattern character; any other character matches itself. Recursion is
structural on the pattern: the `%` case tries every suffix of the text. -/
def likeMatch : List Char → List Char → Bool
  | [], s => s.isEmpty
  | p :: ps, s =>
      if p = '%' then
        s.tails.any (fun t => likeMatch ps t)
      else if p = '_' then
        !s.isEmpty && likeMatch ps s.tail
      else if p = '\\' then
        match ps, s with
        | p0 :: ps', c :: s' => (p0 == c) && likeMatch ps' s'
        | _, _ => false
      else
        match s with
        | [] => false
        | c :: s' => (p == c) && likeMatch ps s'

/-- The filter the search endpoint runs:
`Question.question.ilike(f"%{search_term}%")` — case-insensitive `LIKE`
against the pattern `%term%`. -/
def ilikeContains (term text : List Char) : Bool :=
  likeMatch ('%' :: (lowerStr term ++ ['%'])) (lowerStr text)

/-- Case-insensitive literal substring containment of `term` in `text`
(the spec's reading of search matching), on already lower-cased lists:
true iff some suffix of `text` starts with `term`. -/
def containsSub (term : List Char) : List Char → Bool
  | [] => term.isPrefixOf []
  | c :: s => term.isPrefixOf (c :: s) || containsSub term s

/-- Payload of `POST /questions/search`. -/
structure SearchResult where
  questions : List Question
  totalQuestions : Nat
  current_category : Option (List Char)
deriving DecidableEq, Repr

/-- Endpoint `POST /questions/search` (`question_search`):
`data.get("searchTerm", None)` — an absent key or a falsy value (empty
string) takes the `else` branch and aborts 404; otherwise the store is
filtered by `ilike("%term%")` in store order. -/
def question_search (store : List Question)
    (searchTerm : Option (List Char)) : Outcome SearchResult :=
  match searchTerm with
  | none => .notFound
  | some term =>
      if term.isEmpty then .notFound
      else
        let questions := store.filter (fun q => ilikeContains term q.question)
        .success ⟨questions, questions.length, none⟩

/-- Payload of `GET /categories/<id>/questions`. -/
structure CategoryQuestions where
  questions : List Question
  total_questions : Nat
  current_category : List Char
deriving DecidableEq, Repr

/-- Endpoint `GET /categories/<id>/questions` (`get_questions_by_category`):
404 when the category id is absent; otherwise all questions of that
category (possibly none) with the category's display name. -/
def get_questions_by_category (categories : List Category)
    (store : List Question) (category_id : Nat) : Outcome CategoryQuestions :=
  match categories.find? (fun c => c.id = category_id) with
  | none => .notFound
  | some category =>
      let questions := store.filter (fun q => q.category = category_id)
      .success ⟨questions, questions.length, category.type⟩

/-- The quiz pool: all questions for the `id == 0` "all categories"
sentinel, otherwise the questions of the requested category. -/
def quiz_pool (store : List Question) (catId : Nat) : List Question :=
  if catId = 0 then store else store.filter (fun q => q.category = catId)

/-- Payload of `POST /quizzes`. -/
structure QuizResponse where
  question : Question
deriving DecidableEq, Repr

/-- Endpoint `POST /quizzes` (`set_quiz`). `r1` and `r2` stand for the two
`random.randint(0, len-1)` draws (reduced mod the pool size). A missing or
null `quiz_category`/`previous_questions` aborts 422 (the `KeyError` is
caught by the same bare `except`). On an empty pool `randint(0, -1)`
raises `ValueError`, caught as 422. Otherwise a question is drawn from the
RAW pool; if its id is in `previous_questions` ONE fresh draw from the raw
pool is taken and returned without re-checking. -/
def set_quiz (store : List Question) (quiz_category : Option Nat)
    (previous_questions : Option (List Nat)) (r1 r2 : Nat) :
    Outcome QuizResponse :=
  match quiz_category, previous_questions with
  | some catId, some prev =>
      match quiz_pool store catId with
      | [] => .unprocessable
      | q0 :: _ =>
          let quiz_questions := quiz_pool store catId
          let n := quiz_questions.length
          let next_question := quiz_questions.getD (r1 % n) q0
          let next_question :=
            if next_question.id ∈ prev then quiz_questions.getD (r2 % n) q0
            else next_question
          .success ⟨next_question⟩
  | _, _ => .unprocessable

lemma containsSub_eq_any_tails (term : List Char) :
    ∀ s, containsSub term s = s.tails.any (fun t => term.isPrefixOf t) := by
  intro s
  induction s with
  | nil => simp [containsSub, List.tails]
  | cons c s ih => simp [containsSub, List.tails_cons, ih]

lemma likeMatch_percent_head (ps : List Char) (s : List Char) :
    likeMatch ('%' :: ps) s = s.tails.any (fun t => likeMatch ps t) := by
  rw [likeMatch.eq_def]
  simp

lemma likeMatch_nil (s : List Char) : likeMatch [] s = s.isEmpty := by
  rw [likeMatch.eq_def]

lemma likeMatch_literal :
    ∀ t : List Char, (∀ c ∈ t, c ≠ '%' ∧ c ≠ '_' ∧ c ≠ '\\') →
      ∀ s, likeMatch (t ++ ['%']) s = t.isPrefixOf s := by
  intro t
  induction t with
  | nil =>
      intro _ s
      have h0 : ([] : List Char) ∈ s.tails := (List.mem_tails _ _).mpr List.nil_suffix
      have h1 : ([] : List Char).isPrefixOf s = true := by cases s <;> rfl
      rw [List.nil_append, likeMatch_percent_head, h1]
      exact List.any_eq_true.mpr ⟨[], h0, rfl⟩
  | cons c t ih =>
      intro hw s
      obtain ⟨hc1, hc2, hc3⟩ := hw c (List.mem_cons_self c t)
      have ih' := ih (fun d hd => hw d (List.mem_cons_of_mem c hd))
      rw [List.cons_append, likeMatch.eq_def]
      simp only [if_neg hc1, if_neg hc2, if_neg hc3]
      cases s with
      | nil => simp [List.isPrefixOf]
      | cons d s' => simp [List.isPrefixOf, ih' s']

lemma ilikeContains_eq_containsSub (term text : List Char)
    (hw : ∀ c ∈ lowerStr term, c ≠ '%' ∧ c ≠ '_' ∧ c ≠ '\\') :
    ilikeContains term text = containsSub (lowerStr term) (lowerStr text) := by
  unfold ilikeContains
  rw [containsSub_eq_any_tails, likeMatch_percent_head]
  exact congrArg _ (funext fun t => likeMatch_literal (lowerStr term) hw t)

/-- Example fixtures for concrete witnesses and counterexamples. -/
def exQ1 : Question := ⟨1, ['a','b','c'], ['x'], 1, 1⟩

/-- Second fixture question, same category as `exQ1`. -/
def exQ2 : Question := ⟨2, ['d','e','f'], ['y'], 1, 2⟩

/-- Fixture question with id 5. -/
def exQ5 : Question := ⟨5, ['q'], ['a'], 3, 1⟩

/-- C5: quiz with a category that scopes an empty pool — regardless of the
random draws, `set_quiz` aborts 422 (`randint(0, -1)` raises, the bare
`except` reports Unprocessable), never a question and never Exhausted. -/
theorem quiz_invalid_category (store : List Question) (catId r1 r2 : Nat)
    (hcat : catId ≠ 0) (hempty : ∀ q ∈ store, q.category ≠ catId) :
    set_quiz store (some catId) (some []) r1 r2 = .unprocessable := by
  have hpool : quiz_pool store catId = [] := by
    unfold quiz_pool
    rw [if_neg hcat]
    exact List.filter_eq_nil_iff.mpr (by simpa using hempty)
  simp [set_quiz, hpool]

/-- C5 witness: category 9999 over a store whose only question is in
category 1. -/
theorem quiz_invalid_category_witness :
    set_quiz [exQ1] (some 9999) (some []) 0 0 = .unprocessable :=
  quiz_invalid_category [exQ1] 9999 0 0 (by decide) (by decide)

/-- C1 (code evidence): with pool `[exQ1, exQ2]` and `previous_questions
= [1]` (which does not exhaust the pool), the draws `r1 = r2 = 0` make
`set_quiz` return `exQ1`, whose id IS in `previous_questions`: the
selection is from the raw pool with a single unchecked retry, not from
the unseen-candidate set. -/
theorem quiz_repeat_avoidance_failure :
    set_quiz [exQ1, exQ2] (some 0) (some [1]) 0 0 = .success ⟨exQ1⟩ ∧
    exQ1.id ∈ [1] ∧
    (∃ q ∈ quiz_pool [exQ1, exQ2] 0, q.id ∉ [1]) := by
  decide

/-- C2 (code evidence): when `previous_questions` covers the whole pool
(`[5]` over the one-question pool `[exQ5]`), every pair of random draws
still yields that already-asked question with success; the endpoint has
no exhaustion outcome at all. -/
theorem quiz_exhaustion_failure (r1 r2 : Nat) :
    set_quiz [exQ5] (some 0) (some [5]) r1 r2 = .success ⟨exQ5⟩ := by
  have hpool : quiz_pool [exQ5] 0 = [exQ5] := rfl
  simp [set_quiz, hpool, Nat.mod_one]

/-- C3 counterexample: the search term `"%"` is a LIKE wildcard, so the
endpoint returns `exQ1` although `'%'` is not a literal case-insensitive
substring of `exQ1`'s question text — the result set is not the literal
substring match set. -/
theorem search_literal_counterexample :
    question_search [exQ1] (some ['%']) = .success ⟨[exQ1], 1, none⟩ ∧
    containsSub (lowerStr ['%']) (lowerStr exQ1.question) = false := by
  decide

/-- C3 (amended): an absent or empty search term always yields NotFound;
a non-empty term free of the LIKE wildcard and escape characters
(`%`, `_`, `\`) yields success with exactly the case-insensitive literal
substring matches over the question text, in store (ascending-id) order —
the result is a sublist of the store. -/
theorem search_semantics (store : List Question) (term : List Char)
    (hne : term ≠ [])
    (hw : ∀ c ∈ term, c.toLower ≠ '%' ∧ c.toLower ≠ '_' ∧ c.toLower ≠ '\\') :
    question_search store (some term) =
      .success
        ⟨store.filter (fun q => containsSub (lowerStr term) (lowerStr q.question)),
         (store.filter (fun q => containsSub (lowerStr term) (lowerStr q.question))).length,
         none⟩ ∧
    question_search store (some []) = .notFound ∧
    question_search store none = .notFound ∧
    List.Sublist (store.filter (fun q => ilikeContains term q.question)) store := by
  have hwl : ∀ c ∈ lowerStr term, c ≠ '%' ∧ c ≠ '_' ∧ c ≠ '\\' := by
    intro c hc
    obtain ⟨c0, hc0, rfl⟩ := List.mem_map.mp hc
    exact hw c0 hc0
  have hfil : store.filter (fun q => ilikeContains term q.question)
      = store.filter (fun q => containsSub (lowerStr term) (lowerStr q.question)) := by
    exact List.filter_congr (fun q _ => ilikeContains_eq_containsSub term q.question hwl)
  have hemp : term.isEmpty = false := by
    cases term with
    | nil => exact absurd rfl hne
    | cons c t => rfl
  refine ⟨?_, rfl, rfl, List.filter_sublist store⟩
  simp [question_search, hemp, hfil]

/-- C3 witness: term `"b"` over the one-question store `[exQ1]`. -/
theorem search_semantics_witness :
    question_search [exQ1] (some ['b']) =
      .success
        ⟨[exQ1].filter (fun q => containsSub (lowerStr ['b']) (lowerStr q.question)),
         ([exQ1].filter (fun q => containsSub (lowerStr ['b']) (lowerStr q.question))).length,
         none⟩ ∧
    question_search [exQ1] (some []) = .notFound ∧
    question_search [exQ1] none = .notFound ∧
    List.Sublist ([exQ1].filter (fun q => ilikeContains ['b'] q.question)) [exQ1] :=
  search_semantics [exQ1] ['b'] (by decide) (by decide)

/-- C10: search terms are LIKE patterns — term `"%"` matches every
question, so a non-empty store is returned whole with success; and the
term `"a_c"` (LIKE wildcard `_`) matches `exQ1`'s text `"abc"` although
it is not a literal case-insensitive substring of it. -/
theorem search_like_wildcards (store : List Question) (_hne : store ≠ []) :
    question_search store (some ['%']) = .success ⟨store, store.length, none⟩ ∧
    question_search [exQ1] (some ['a','_','c']) = .success ⟨[exQ1], 1, none⟩ ∧
    containsSub (lowerStr ['a','_','c']) (lowerStr exQ1.question) = false := by
  refine ⟨?_, by decide, by decide⟩
  have hall : ∀ q : Question, ilikeContains ['%'] q.question = true := by
    intro q
    unfold ilikeContains
    rw [likeMatch_percent_head]
    exact List.any_eq_true.mpr
      ⟨[], (List.mem_tails _ _).mpr List.nil_suffix, by decide⟩
  have hfil : store.filter (fun q => ilikeContains ['%'] q.question) = store :=
    List.filter_eq_self.mpr (fun q _ => hall q)
  simp [question_search, hfil]

/-- C10 witness: the singleton store `[exQ2]` is non-empty. -/
theorem search_like_wildcards_witness :
    question_search [exQ2] (some ['%']) = .success ⟨[exQ2], [exQ2].length, none⟩ ∧
    question_search [exQ1] (some ['a','_','c']) = .success ⟨[exQ1], 1, none⟩ ∧
    containsSub (lowerStr ['a','_','c']) (lowerStr exQ1.question) = false :=
  search_like_wildcards [exQ2] (by decide)

/-- C4: with pageSize 10, page `p ≥ 1` returns exactly the slice
`[10*(p-1), 10*(p-1)+10)` of the id-ordered store — that is
`min 10 (N - 10*(p-1))` questions — and NotFound exactly when that
count is 0. -/
theorem pagination_boundary (store : List Question) (categories : List Category)
    (page : Nat) (_hp : 1 ≤ page) :
    get_questions store categories page =
      (if min 10 (store.length - 10 * (page - 1)) = 0 then Outcome.notFound
       else .success ⟨(store.drop ((page - 1) * 10)).take 10, store.length,
                      none, categories⟩) ∧
    ((store.drop ((page - 1) * 10)).take 10).length
      = min 10 (store.length - 10 * (page - 1)) := by
  have hlen : ((store.drop ((page - 1) * 10)).take 10).length
      = min 10 (store.length - 10 * (page - 1)) := by
    rw [List.length_take, List.length_drop, Nat.mul_comm]
  refine ⟨?_, hlen⟩
  unfold get_questions paginate_items
  simp only [hlen]

/-- C4 witness: a 12-question store has 2 questions on page 2, and page 3
is NotFound. -/
theorem pagination_boundary_witness :
    (get_questions (List.range 12 |>.map (fun i => ⟨i, ['q'], ['a'], 1, 1⟩)) [] 2 =
      (if min 10 ((List.range 12 |>.map (fun i => (⟨i, ['q'], ['a'], 1, 1⟩ : Question))).length - 10 * (2 - 1)) = 0
       then Outcome.notFound
       else .success ⟨((List.range 12 |>.map (fun i => (⟨i, ['q'], ['a'], 1, 1⟩ : Question))).drop ((2 - 1) * 10)).take 10,
                      (List.range 12 |>.map (fun i => (⟨i, ['q'], ['a'], 1, 1⟩ : Question))).length, none, []⟩) ∧
     (((List.range 12 |>.map (fun i => (⟨i, ['q'], ['a'], 1, 1⟩ : Question))).drop ((2 - 1) * 10)).take 10).length
      = min 10 ((List.range 12 |>.map (fun i => (⟨i, ['q'], ['a'], 1, 1⟩ : Question))).length - 10 * (2 - 1))) :=
  pagination_boundary (List.range 12 |>.map (fun i => ⟨i, ['q'], ['a'], 1, 1⟩)) [] 2 (by decide)

/-- C8: deleting an id not present in the store reports Unprocessable
(the internal 404 is swallowed by the bare `except` and re-raised as 422),
never NotFound; deleting a present id succeeds, removes it, and reports
the deleted id. -/
theorem delete_semantics (store : Store) (question_id : Nat) :
    delete_question store question_id =
      if ∃ q ∈ store.questions, q.id = question_id then
        (.success question_id,
         ⟨store.questions.filter (fun q => q.id ≠ question_id), store.nextId⟩)
      else (.unprocessable, store) := by
  unfold delete_question
  by_cases h : ∃ q ∈ store.questions, q.id = question_id
  · rw [if_pos h]
    have hsome : (store.questions.find? (fun q => q.id = question_id)).isSome := by
      rw [List.find?_isSome]
      obtain ⟨q, hq, he⟩ := h
      exact ⟨q, hq, by simpa using he⟩
    obtain ⟨x, hx⟩ := Option.isSome_iff_exists.mp hsome
    rw [hx]
  · rw [if_neg h]
    have hnone : store.questions.find? (fun q => q.id = question_id) = none := by
      apply List.find?_eq_none.mpr
      intro q hq
      simpa using fun he => h ⟨q, hq, he⟩
    rw [hnone]

/-- C9: a create request whose JSON body omits any of the four keys raises
`KeyError` at the subscript extraction, before the `is None` check and
before the `try`, so the call surfaces as an internal error — not 422 —
and the store is unchanged (nothing is inserted). -/
theorem create_missing_key (store : Store) (body : CreateBody)
    (h : body.question = none ∨ body.answer = none ∨
         body.category = none ∨ body.difficulty = none) :
    create_question store body = (.internalError, store) := by
  obtain ⟨q, a, c, d⟩ := body
  rcases q with _ | q <;> rcases a with _ | a <;> rcases c with _ | c <;>
    rcases d with _ | d <;> simp_all [create_question]

/-- C9 witness: a body missing the `question` key. -/
theorem create_missing_key_witness :
    create_question ⟨[], 1⟩ ⟨none, some (some ['a']), some (some 1), some (some 1)⟩
      = (.internalError, ⟨[], 1⟩) :=
  create_missing_key ⟨[], 1⟩ ⟨none, some (some ['a']), some (some 1), some (some 1)⟩
    (by decide)

/-- C6: creating a question (all four fields present, non-null) and then
deleting the created id restores the original question count; creating
with a null `category` reports Unprocessable and leaves the store
untouched. `hfresh` is the store invariant that the next id to be
assigned is not already in use. -/
theorem create_delete_roundtrip (store : Store) (b a : List Char) (c d : Nat)
    (qb qa : Option (List Char)) (qd : Option Nat)
    (hfresh : ∀ q ∈ store.questions, q.id ≠ store.nextId) :
    (create_question store
        ⟨some (some b), some (some a), some (some c), some (some d)⟩).1
      = .success store.nextId ∧
    ((delete_question
        (create_question store
          ⟨some (some b), some (some a), some (some c), some (some d)⟩).2
        store.nextId).2).questions.length = store.questions.length ∧
    create_question store ⟨some qb, some qa, some none, some qd⟩
      = (.unprocessable, store) := by
  refine ⟨rfl, ?_, ?_⟩
  · have hcre : (create_question store
        ⟨some (some b), some (some a), some (some c), some (some d)⟩).2
        = ⟨store.questions ++ [⟨store.nextId, b, a, c, d⟩], store.nextId + 1⟩ := rfl
    rw [hcre]
    have h1 : store.questions.find? (fun q => q.id = store.nextId) = none :=
      List.find?_eq_none.mpr (fun q hq => by simpa using hfresh q hq)
    have hfind : ((⟨store.questions ++ [⟨store.nextId, b, a, c, d⟩],
          store.nextId + 1⟩ : Store).questions).find? (fun q => q.id = store.nextId)
        = some ⟨store.nextId, b, a, c, d⟩ := by
      rw [List.find?_append, h1]
      simp [List.find?]
    unfold delete_question
    rw [hfind]
    have h2 : store.questions.filter (fun q => q.id ≠ store.nextId)
        = store.questions :=
      List.filter_eq_self.mpr (fun q hq => by simpa using hfresh q hq)
    have h3 : ([⟨store.nextId, b, a, c, d⟩] : List Question).filter
        (fun q => q.id ≠ store.nextId) = [] := by simp
    simp only [List.filter_append, h2, h3, List.append_nil]
  · cases qb <;> cases qa <;> cases qd <;> rfl

/-- C6 witness: an empty store with next id 7. -/
theorem create_delete_roundtrip_witness :
    (create_question ⟨[], 7⟩
        ⟨some (some ['q']), some (some ['a']), some (some 1), some (some 2)⟩).1
      = .success (⟨[], 7⟩ : Store).nextId ∧
    ((delete_question
        (create_question ⟨[], 7⟩
          ⟨some (some ['q']), some (some ['a']), some (some 1), some (some 2)⟩).2
        (⟨[], 7⟩ : Store).nextId).2).questions.length
      = (⟨[], 7⟩ : Store).questions.length ∧
    create_question ⟨[], 7⟩ ⟨some none, some none, some none, some none⟩
      = (.unprocessable, ⟨[], 7⟩) :=
  create_delete_roundtrip ⟨[], 7⟩ ['q'] ['a'] 1 2 none none none (by decide)

/-- C7: a category id present in the category table but with zero
associated questions yields success with an empty question list, count 0
and the category's display name — not NotFound; removing the category
from the table makes the same request NotFound. -/
theorem category_zero_questions (categories : List Category)
    (store : List Question) (category_id : Nat) (category : Category)
    (hfind : categories.find? (fun c => c.id = category_id) = some category)
    (hempty : ∀ q ∈ store, q.category ≠ category_id) :
    get_questions_by_category categories store category_id
      = .success ⟨[], 0, category.type⟩ ∧
    get_questions_by_category (categories.filter (fun c => c.id ≠ category_id))
      store category_id = .notFound := by
  have hq : store.filter (fun q => q.category = category_id) = [] :=
    List.filter_eq_nil_iff.mpr (by simpa using hempty)
  constructor
  · simp [get_questions_by_category, hfind, hq]
  · have hnone : (categories.filter (fun c => c.id ≠ category_id)).find?
        (fun c => c.id = category_id) = none := by
      apply List.find?_eq_none.mpr
      intro cat hcat
      have := List.of_mem_filter hcat
      simpa using this
    unfold get_questions_by_category
    rw [hnone]

/-- C7 witness: category 4 exists, the store's only question is in
category 1. -/
theorem category_zero_questions_witness :
    get_questions_by_category [⟨4, ['s']⟩] [exQ1] 4
      = .success ⟨[], 0, (⟨4, ['s']⟩ : Category).type⟩ ∧
    get_questions_by_category ([⟨4, ['s']⟩].filter (fun c => c.id ≠ 4)) [exQ1] 4
      = .notFound :=
  category_zero_questions [⟨4, ['s']⟩] [exQ1] 4 ⟨4, ['s']⟩ (by decide) (by decide)


end Trivia
